import Mathlib

/-
Verification of the widget-to-variable binding layer of the liikelaaj
data-entry application (liikelaajuus.py / sql_entryapp.py).

The embedding models Python numbers (int and float alike) as rationals,
Python strings as Lean strings, and the per-widget-type codec closures of
EntryApp.init_widgets as pure functions on explicit widget-state
structures.  Python code that can raise is modelled with Option or
Except: a raised exception corresponds to Option.none or Except.error.
-/

/-- Canonical scalar value stored in the data record.  The sentinel
noValue models the configured spinbox no-value marker text
(Config.spinbox_novalue_text); it is a distinguished marker meaning
not measured, distinct from every number and from other strings. -/
inductive Value where
  | noValue : Value
  | num : ℚ → Value
  | str : String → Value
deriving DecidableEq, Repr

/-- State of a QSpinBox or QDoubleSpinBox input widget: the configured
range, the currently stored numeric value and the configured display
suffix.  Qt guarantees minimum ≤ value ≤ maximum for live widgets; the
range bounds and the suffix are fixed at form construction time. -/
structure SpinBox where
  minimum : ℚ
  maximum : ℚ
  value : ℚ
  sfx : String
deriving DecidableEq, Repr

/-- Model of QSpinBox.setValue: Qt clamps the argument into the
configured range [minimum, maximum]. -/
def setValue (w : SpinBox) (v : ℚ) : SpinBox :=
  { w with value := max w.minimum (min v w.maximum) }

/-- Decode a spinbox: return the no-value sentinel if the widget reports
its configured minimum, otherwise the stored numeric value (source:
spinbox_getval in init_widgets). -/
def spinbox_getval (w : SpinBox) : Value :=
  if w.value = w.minimum then Value.noValue else Value.num w.value

/-- Encode a value into a spinbox: the sentinel maps to the configured
minimum, a number is passed to setValue unchanged (source:
spinbox_setval in init_widgets).  Passing any other string to
QSpinBox.setValue would raise TypeError in Python, modelled as none. -/
def spinbox_setval (w : SpinBox) (val : Value) : Option SpinBox :=
  match val with
  | Value.noValue => some (setValue w w.minimum)
  | Value.num q => some (setValue w q)
  | Value.str _ => none

/-- Model of the isint helper of init_widgets, which runs int(x) and
returns False exactly when ValueError is raised.  Python int() accepts
every int and float (floats are truncated, never a ValueError), and
accepts a string only when it parses as an integer literal; the
no-value marker text is non-numeric, so it does not parse. -/
def isint (x : Value) : Bool :=
  match x with
  | Value.num _ => true
  | Value.noValue => false
  | Value.str s => s.toInt?.isSome

/-- Unit reported for a numeric widget: the configured suffix when the
current value passes isint, the empty string otherwise (source:
w.unit lambda for sp widgets in init_widgets). -/
def spinbox_unit (w : SpinBox) : String :=
  if isint (spinbox_getval w) then w.sfx else ""

/-- Error text standing for a Python ZeroDivisionError escaping from
the val/weight expression. -/
def zde_msg : String := "ZeroDivisionError: float division by zero"

/-- Error text standing for a Python TypeError from an unsupported
operand or argument type. -/
def type_err_msg : String := "TypeError: unsupported operand type"

/-- Model of Python division as used in _weight_normalize: val/weight
raises ZeroDivisionError when the divisor is zero, otherwise yields the
quotient. -/
def pyDiv (a b : ℚ) : Except String ℚ :=
  if b = 0 then Except.error zde_msg else Except.ok (a / b)

/-- Value computation of _weight_normalize: given the decoded values of
the unnormalized widget and the weight widget, produce the value passed
to w.setVal, namely noval if val == noval or weight == noval else
val/weight.  Dividing two non-sentinel values that are not both numbers
would raise TypeError in Python. -/
def weight_normalize (val weight : Value) : Except String Value :=
  if val = Value.noValue ∨ weight = Value.noValue then Except.ok Value.noValue
  else
    match val, weight with
    | Value.num a, Value.num b => (pyDiv a b).map Value.num
    | _, _ => Except.error type_err_msg

/-- Full _weight_normalize callback on widget states: read both
dependency widgets (the NormUn sibling and spAntropPaino, in that
order), compute the normalized value and write it into the Norm widget
through its setVal. -/
def autocalculate (norm unnorm weight : SpinBox) : Except String SpinBox :=
  match weight_normalize (spinbox_getval unnorm) (spinbox_getval weight) with
  | Except.ok v =>
      match spinbox_setval norm v with
      | some n => Except.ok n
      | none => Except.error type_err_msg
  | Except.error e => Except.error e

/-- State of a QComboBox input widget: its fixed option list and the
index of the currently selected option. -/
structure ComboBox where
  items : List String
  currentIndex : Nat
deriving DecidableEq, Repr

/-- Model of QComboBox.findText: index of the first option equal to the
given text, none when no option matches (Qt returns -1). -/
def find_text (items : List String) (val : String) : Option Nat :=
  match items with
  | [] => none
  | a :: t => if a = val then some 0 else (find_text t val).map (fun i => i + 1)

/-- Error text raised by combobox_setval on a value that matches no
option. -/
def invalid_choice_msg : String := "Tried to set combobox to invalid value."

/-- Model of combobox_setval in init_widgets: look the value up among
the options; select it when found, otherwise raise ValueError.  The
raise happens before any mutation, so the error case returns the widget
unchanged together with the error message. -/
def combobox_setval (w : ComboBox) (val : String) : ComboBox × Option String :=
  match find_text w.items val with
  | some idx => ({ w with currentIndex := idx }, none)
  | none => (w, some invalid_choice_msg)

/-- Model of combobox_getval in init_widgets: the currently selected
option text (Qt returns the empty string for an invalid index). -/
def combobox_getval (w : ComboBox) : String :=
  match w.items[w.currentIndex]? with
  | some s => s
  | none => ""

/-- Widget type tags corresponding to the recognized object-name
patterns of init_widgets. -/
inductive WidgetType where
  | spinbox | lineedit | combobox | comment | checkbox | checkdeg
deriving DecidableEq, Repr

/-- Classification of a widget object name into an input widget type,
mirroring the chain of tests in init_widgets (wname[:2] == sp, ln, cb,
then wname[:3] == cmt, then xb, then csb); any other name is not
collected into input_widgets.  Names are modelled as character lists so
that Python string slicing is List.take / List.drop. -/
def classify (wname : List Char) : Option WidgetType :=
  if wname.take 2 = ['s', 'p'] then some WidgetType.spinbox
  else if wname.take 2 = ['l', 'n'] then some WidgetType.lineedit
  else if wname.take 2 = ['c', 'b'] then some WidgetType.combobox
  else if wname.take 3 = ['c', 'm', 't'] then some WidgetType.comment
  else if wname.take 2 = ['x', 'b'] then some WidgetType.checkbox
  else if wname.take 3 = ['c', 's', 'b'] then some WidgetType.checkdeg
  else none

/-- Variable-name derivation of the widget_to_var loop of init_widgets:
cmt names are kept whole, csb names drop three leading characters, all
other collected names drop two. -/
def widget_to_var (wname : List Char) : List Char :=
  if wname.take 3 = ['c', 'm', 't'] then wname
  else if wname.take 3 = ['c', 's', 'b'] then wname.drop 3
  else wname.drop 2

/-- Data record: an association list from variable names to values,
modelling the Python dict self.data (dict keys are unique; the lookup
below takes the first match, which coincides on unique keys). -/
abbrev Record := List (String × Value)

/-- Key set of a record, in order of appearance. -/
def rkeys (r : Record) : List String :=
  r.map (fun kv => kv.1)

/-- Dictionary lookup on a record. -/
def rlookup (r : Record) (k : String) : Option Value :=
  match r with
  | [] => none
  | kv :: t => if kv.1 = k then some kv.2 else rlookup t k

/-- Dictionary assignment data[k] = v: replace the value at the first
occurrence of the key, or append the pair when the key is absent. -/
def record_update (r : Record) (k : String) (v : Value) : Record :=
  match r with
  | [] => [(k, v)]
  | kv :: t => if kv.1 = k then (k, v) :: t else kv :: record_update t k v

/-- Merge step of EntryApp.load_file: self.data = self.data_empty.copy()
followed by self.data[key] = data_loaded[key] for every key in
keys.intersection(loaded_keys).  Since every key of the empty record is
already present, this equals mapping each empty-record entry to the
incoming value when the incoming record has the key, keeping the
default otherwise. -/
def load_merge (empty incoming : Record) : Record :=
  empty.map (fun kv =>
    match rlookup incoming kv.1 with
    | some v => (kv.1, v)
    | none => kv)

/-- Outcome of EntryApp.keyerror_dialog: which incoming keys are
unknown, which expected keys are missing, and whether a message dialog
is actually shown to the user. -/
structure KeyReport where
  extra : List String
  missing : List String
  dialog : Bool
deriving Repr

/-- Model of EntryApp.keyerror_dialog: extra_in_new = newkeys - origkeys
and not_in_new = origkeys - newkeys are computed, both are formatted
into the report text, but message_dialog runs only when extra_in_new is
nonempty (source comment: only show the dialog if data was lost, not
for missing values). -/
def keyerror_dialog (origkeys newkeys : List String) : KeyReport :=
  let extra := newkeys.filter (fun k => decide (k ∉ origkeys))
  let missing := origkeys.filter (fun k => decide (k ∉ newkeys))
  { extra := extra, missing := missing, dialog := !extra.isEmpty }

/-- Relevant mutable state of EntryApp: the live record, the empty
record snapshot, the dirty flag, the two re-entrancy guard flags, a
count of temp-file saves performed, and the last save path. -/
structure AppState where
  data : Record
  data_empty : Record
  saved_to_file : Bool
  update_dict : Bool
  save_to_tmp : Bool
  tmp_saves : Nat
  last_saved_filepath : Option String
deriving Repr

/-- Model of EntryApp.values_changed for the record and persistence side
effects: write the decoded widget value into the data dict only when
update_dict holds, unconditionally mark the data unsaved, and save to
the temp file only when save_to_tmp holds.  The autowidget recompute
that precedes these steps updates widgets, not the dict; any nested
change notifications it fires are modelled as further calls of this
function. -/
def values_changed (st : AppState) (varname : String) (newval : Value) : AppState :=
  let st1 := if st.update_dict then { st with data := record_update st.data varname newval } else st
  let st2 := { st1 with saved_to_file := false }
  if st2.save_to_tmp then { st2 with tmp_saves := st2.tmp_saves + 1 } else st2

/-- Model of EntryApp.restore_forms: clear both guard flags, push every
record value back into its widget (each programmatic setVal may fire a
change notification, given here as the fired list, in order), then
re-enable the flags. -/
def restore_forms (st : AppState) (fired : List (String × Value)) : AppState :=
  let st1 := { st with save_to_tmp := false, update_dict := false }
  let st2 := fired.foldl (fun s kv => values_changed s kv.1 kv.2) st1
  { st2 with save_to_tmp := true, update_dict := true }

/-- Dialog text of ll_msgs.cannot_open, shown when a load fails. -/
def cannot_open_msg : String := "Cannot open file "

/-- Model of EntryApp.load_file: json.load runs first, before any
mutation; the parse outcome is therefore an explicit input.  On
success, the key mismatch report is computed from the current and
incoming key sets, then the record is rebuilt from the empty snapshot
merged with the incoming values.  (The subsequent restore_forms call is
modelled separately.) -/
def load_file (st : AppState) (parsed : Except String Record) :
    Except String (AppState × KeyReport) :=
  match parsed with
  | Except.error e => Except.error e
  | Except.ok incoming =>
      let report := keyerror_dialog (rkeys st.data) (rkeys incoming)
      Except.ok ({ st with data := load_merge st.data_empty incoming }, report)

/-- Model of the try/except body of EntryApp._load_dialog: on a load
failure (Config.json_io_exceptions) the exception is caught here, an
error dialog is shown and nothing else happens; on success the save
path and the saved flag are updated. -/
def load_dialog (st : AppState) (path : String) (parsed : Except String Record) :
    AppState × Option String :=
  match load_file st parsed with
  | Except.error _ => (st, some (cannot_open_msg ++ path))
  | Except.ok (st2, _) =>
      ({ st2 with last_saved_filepath := some path, saved_to_file := true }, none)

/-
Helper lemmas.
-/

/-- A two-element take determines the first two characters of the list. -/
theorem take_two_eq {a b : Char} {s : List Char} (h : s.take 2 = [a, b]) :
    ∃ t, s = a :: b :: t := by
  match s with
  | [] => simp at h
  | [x] => simp at h
  | x :: y :: t =>
      simp [List.take] at h
      exact ⟨t, by simp [h.1, h.2]⟩

/-- A three-element take determines the first three characters of the list. -/
theorem take_three_eq {a b c : Char} {s : List Char} (h : s.take 3 = [a, b, c]) :
    ∃ t, s = a :: b :: c :: t := by
  match s with
  | [] => simp at h
  | [x] => simp at h
  | [x, y] => simp [List.take] at h
  | x :: y :: z :: t =>
      simp [List.take] at h
      exact ⟨t, by simp [h.1, h.2.1, h.2.2]⟩

/-- Looking up a key that is not among the keys of a record yields none. -/
theorem rlookup_eq_none {r : Record} {k : String} (h : k ∉ rkeys r) :
    rlookup r k = none := by
  induction r with
  | nil => rfl
  | cons kv t ih =>
      simp [rkeys] at h
      simp [rlookup, ih (by simp [rkeys, h.2])]
      intro hk
      exact absurd hk.symm h.1

/-- The merged record has exactly the keys of the empty record. -/
theorem rkeys_load_merge (e i : Record) : rkeys (load_merge e i) = rkeys e := by
  induction e with
  | nil => rfl
  | cons kv t ih =>
      simp [load_merge, rkeys] at ih ⊢
      refine ⟨?_, ih⟩
      cases rlookup i kv.1 <;> simp

/-- Claim C5: the Numeric codec decodes to the NoValue sentinel exactly
when the control reports its configured minimum and to the stored
number otherwise; encoding NoValue sets the control to its minimum, and
encoding any numeric value valid for the control (strictly above the
sentinel minimum and within range) passes it through, so decode after
encode is the identity on such values and on the sentinel. -/
theorem spinbox_codec_correct (w : SpinBox) (hle : w.minimum ≤ w.maximum) :
    (spinbox_getval w = Value.noValue ↔ w.value = w.minimum) ∧
    (w.value ≠ w.minimum → spinbox_getval w = Value.num w.value) ∧
    (spinbox_setval w Value.noValue = some { w with value := w.minimum }) ∧
    ((spinbox_setval w Value.noValue).map spinbox_getval = some Value.noValue) ∧
    (∀ q : ℚ, w.minimum < q → q ≤ w.maximum →
      (spinbox_setval w (Value.num q)).map spinbox_getval = some (Value.num q)) := by
  have hmin : setValue w w.minimum = { w with value := w.minimum } := by
    simp [setValue, min_eq_left hle]
  refine ⟨?_, ?_, ?_, ?_, ?_⟩
  · constructor
    · intro h
      by_contra hne
      simp [spinbox_getval, hne] at h
    · intro h
      simp [spinbox_getval, h]
  · intro h
    simp [spinbox_getval, h]
  · simp [spinbox_setval, hmin]
  · simp [spinbox_setval, hmin, spinbox_getval]
  · intro q h1 h2
    have hval : setValue w q = { w with value := q } := by
      simp [setValue, min_eq_left h2, max_eq_right (le_of_lt h1)]
    simp [spinbox_setval, hval, spinbox_getval, ne_of_gt h1]

/-- Witness for spinbox_codec_correct at the concrete spinbox with
range [0, 180], stored value 0 and empty suffix, encoding the value 90. -/
theorem spinbox_codec_correct_witness :
    ((0 : ℚ) ≤ 180) ∧ ((0 : ℚ) < 90) ∧ ((90 : ℚ) ≤ 180) ∧
    ((spinbox_setval (SpinBox.mk 0 180 0 "") (Value.num 90)).map spinbox_getval =
      some (Value.num 90)) :=
  ⟨by norm_num, by norm_num, by norm_num,
   (spinbox_codec_correct (SpinBox.mk 0 180 0 "") (by norm_num)).2.2.2.2 90
     (by norm_num) (by norm_num)⟩

/-- Claim C1: when the weight-normalize recompute runs, a sentinel in
either dependency makes the derived control decode to NoValue again,
and otherwise, for a nonzero weight, the value written through setVal
is exactly rawValue / weightValue; when that quotient lies in the
derived control range (strictly above the sentinel minimum), the
derived control then decodes to exactly that quotient. -/
theorem weight_normalize_correct (norm unnorm weight : SpinBox)
    (hle : norm.minimum ≤ norm.maximum) :
    ((spinbox_getval unnorm = Value.noValue ∨ spinbox_getval weight = Value.noValue) →
      ∃ n, autocalculate norm unnorm weight = Except.ok n ∧
        spinbox_getval n = Value.noValue) ∧
    (∀ v w : ℚ, w ≠ 0 →
      weight_normalize (Value.num v) (Value.num w) = Except.ok (Value.num (v / w))) ∧
    (∀ v w : ℚ, spinbox_getval unnorm = Value.num v →
      spinbox_getval weight = Value.num w → w ≠ 0 →
      norm.minimum < v / w → v / w ≤ norm.maximum →
      ∃ n, autocalculate norm unnorm weight = Except.ok n ∧
        spinbox_getval n = Value.num (v / w)) := by
  refine ⟨?_, ?_, ?_⟩
  · intro h
    refine ⟨{ norm with value := norm.minimum }, ?_, ?_⟩
    · simp [autocalculate, weight_normalize, h, spinbox_setval, setValue, min_eq_left hle]
    · simp [spinbox_getval]
  · intro v w hw
    simp [weight_normalize, pyDiv, hw, Except.map]
  · intro v w hv hw hw0 hlo hhi
    refine ⟨{ norm with value := v / w }, ?_, ?_⟩
    · simp [autocalculate, hv, hw, weight_normalize, pyDiv, hw0, spinbox_setval,
        setValue, Except.map, min_eq_left hhi, max_eq_right (le_of_lt hlo)]
    · simp [spinbox_getval, ne_of_gt hlo]

/-- Witness for weight_normalize_correct: raw value 80 and weight 40
give the derived value 80 / 40 on a derived control with range
[0, 100]. -/
theorem weight_normalize_correct_witness :
    ((0 : ℚ) ≤ 100) ∧
    (spinbox_getval (SpinBox.mk 0 200 80 "") = Value.num 80) ∧
    (spinbox_getval (SpinBox.mk (-10) 200 40 "") = Value.num 40) ∧
    ((40 : ℚ) ≠ 0) ∧ ((0 : ℚ) < 80 / 40) ∧ ((80 : ℚ) / 40 ≤ 100) ∧
    (∃ n, autocalculate (SpinBox.mk 0 100 0 "") (SpinBox.mk 0 200 80 "")
        (SpinBox.mk (-10) 200 40 "") = Except.ok n ∧
      spinbox_getval n = Value.num (80 / 40)) :=
  ⟨by norm_num, by decide, by decide, by norm_num, by norm_num, by norm_num,
   (weight_normalize_correct (SpinBox.mk 0 100 0 "") (SpinBox.mk 0 200 80 "")
      (SpinBox.mk (-10) 200 40 "") (by norm_num)).2.2 80 40 (by decide) (by decide)
      (by norm_num) (by norm_num) (by norm_num)⟩

/-- Counterexample for claim C3: with both dependencies decoding to
numbers and the weight exactly zero (weight widget range [-10, 100],
stored value 0), the recompute does not set the derived control to
NoValue: the division raises ZeroDivisionError. -/
theorem zero_weight_raises_cex :
    (spinbox_getval (SpinBox.mk 0 100 40 "") = Value.num 40) ∧
    (spinbox_getval (SpinBox.mk (-10) 100 0 "") = Value.num 0) ∧
    (autocalculate (SpinBox.mk 0 100 0 "") (SpinBox.mk 0 100 40 "")
      (SpinBox.mk (-10) 100 0 "") = Except.error zde_msg) := by
  refine ⟨by decide, by decide, ?_⟩
  simp [autocalculate, weight_normalize, spinbox_getval, pyDiv, Except.map]

/-- Amended claim C3: when recompute runs with both dependencies
decoding to numbers and the weight exactly zero, the val/weight
division raises ZeroDivisionError; the code special-cases only the
sentinel, not a zero weight, so no NoValue is propagated and the
exception escapes the callback. -/
theorem zero_weight_raises (norm unnorm weight : SpinBox) (v : ℚ)
    (hv : spinbox_getval unnorm = Value.num v)
    (hw : spinbox_getval weight = Value.num 0) :
    autocalculate norm unnorm weight = Except.error zde_msg := by
  simp [autocalculate, hv, hw, weight_normalize, pyDiv, Except.map]

/-- Witness for zero_weight_raises at the concrete widgets of the
counterexample. -/
theorem zero_weight_raises_witness :
    (spinbox_getval (SpinBox.mk 0 100 40 "") = Value.num 40) ∧
    (spinbox_getval (SpinBox.mk (-10) 100 0 "") = Value.num 0) ∧
    (autocalculate (SpinBox.mk 5 100 5 "") (SpinBox.mk 0 100 40 "")
      (SpinBox.mk (-10) 100 0 "") = Except.error zde_msg) :=
  ⟨by decide, by decide,
   zero_weight_raises (SpinBox.mk 5 100 5 "") (SpinBox.mk 0 100 40 "")
     (SpinBox.mk (-10) 100 0 "") 40 (by decide) (by decide)⟩

/-- Claim C2: after the merge step of load_file, the record key set
equals the key set of the empty-record snapshot (the expected keys of
the registry); keys absent from the incoming record keep their
empty-record default, keys present in both carry the incoming value,
and keys that only the incoming record has are absent from the result. -/
theorem load_merge_reconciles (e i : Record) :
    rkeys (load_merge e i) = rkeys e ∧
    (∀ k, k ∉ rkeys i → rlookup (load_merge e i) k = rlookup e k) ∧
    (∀ k v, k ∈ rkeys e → rlookup i k = some v →
      rlookup (load_merge e i) k = some v) ∧
    (∀ k, k ∉ rkeys e → rlookup (load_merge e i) k = none) := by
  refine ⟨rkeys_load_merge e i, ?_, ?_, ?_⟩
  · intro k hk
    induction e with
    | nil => rfl
    | cons kv t ih =>
        by_cases hkey : kv.1 = k
        · have hnone : rlookup i k = none := rlookup_eq_none hk
          simp [load_merge, rlookup, hkey, hnone]
        · have step : rlookup (load_merge (kv :: t) i) k = rlookup (load_merge t i) k := by
            cases hli : rlookup i kv.1 <;> simp [load_merge, rlookup, hli, hkey]
          rw [step, ih]
          simp [rlookup, hkey]
  · intro k v hk hv
    induction e with
    | nil => simp [rkeys] at hk
    | cons kv t ih =>
        by_cases hkey : kv.1 = k
        · simp [load_merge, rlookup, hkey, hv]
        · have hk2 : k ∈ rkeys t := by
            simp [rkeys] at hk
            rcases hk with h | h
            · exact absurd h.symm hkey
            · simpa [rkeys] using h
          have step : rlookup (load_merge (kv :: t) i) k = rlookup (load_merge t i) k := by
            cases hli : rlookup i kv.1 <;> simp [load_merge, rlookup, hli, hkey]
          rw [step, ih hk2]
  · intro k hk
    apply rlookup_eq_none
    rw [rkeys_load_merge]
    exact hk

/-- Witness for load_merge_reconciles: merging an incoming record with
the unknown key ghost into a one-field empty record keeps the expected
key set and drops the ghost key. -/
theorem load_merge_reconciles_witness :
    ("ghost" ∉ rkeys ([("alpha", Value.num 1)] : Record)) ∧
    rlookup (load_merge ([("alpha", Value.num 1)] : Record)
      ([("alpha", Value.num 2), ("ghost", Value.num 3)] : Record)) "ghost" = none :=
  ⟨by decide,
   (load_merge_reconciles ([("alpha", Value.num 1)] : Record)
      ([("alpha", Value.num 2), ("ghost", Value.num 3)] : Record)).2.2.2 "ghost"
      (by decide)⟩

/-- Counterexample for claim C4: loading a record that merely lacks the
known key beta (and has no unknown keys) computes the missing-keys text
but shows no dialog to the user: keyerror_dialog only calls
message_dialog when unknown incoming keys exist. -/
theorem missing_key_no_dialog_cex :
    ((keyerror_dialog ["alpha", "beta"] ["alpha"]).missing = ["beta"]) ∧
    ((keyerror_dialog ["alpha", "beta"] ["alpha"]).extra = []) ∧
    ((keyerror_dialog ["alpha", "beta"] ["alpha"]).dialog = false) := by
  refine ⟨by decide, by decide, by decide⟩

/-- Amended claim C4: the reconciliation report is computed before the
record is mutated (keyerror_dialog runs before the data reset in
load_file); incoming keys unknown to the registry always make the
dialog appear and each such key is listed in it, and expected keys
missing from the incoming record are listed in the report text, but the
dialog is shown only when unknown incoming keys also exist, so a record
that is merely missing known keys produces no user-visible report. -/
theorem keyerror_dialog_policy (origkeys newkeys : List String) :
    ((keyerror_dialog origkeys newkeys).dialog = true ↔
      (keyerror_dialog origkeys newkeys).extra ≠ []) ∧
    (∀ k, k ∈ newkeys → k ∉ origkeys → k ∈ (keyerror_dialog origkeys newkeys).extra) ∧
    (∀ k, k ∈ origkeys → k ∉ newkeys → k ∈ (keyerror_dialog origkeys newkeys).missing) ∧
    ((keyerror_dialog origkeys newkeys).extra = [] →
      (keyerror_dialog origkeys newkeys).dialog = false) := by
  refine ⟨?_, ?_, ?_, ?_⟩
  · simp [keyerror_dialog, List.isEmpty_iff]
  · intro k hk1 hk2
    simp [keyerror_dialog, List.mem_filter, hk1, hk2]
  · intro k hk1 hk2
    simp [keyerror_dialog, List.mem_filter, hk1, hk2]
  · intro h
    simp only [keyerror_dialog] at h ⊢
    rw [h]
    rfl

/-- Witness for keyerror_dialog_policy: the unknown incoming key gamma
is listed as extra, and a missing expected key beta is listed as
missing, at concrete key sets. -/
theorem keyerror_dialog_policy_witness :
    ("gamma" ∈ (["alpha", "gamma"] : List String)) ∧
    ("gamma" ∉ (["alpha", "beta"] : List String)) ∧
    ("gamma" ∈ (keyerror_dialog ["alpha", "beta"] ["alpha", "gamma"]).extra) :=
  ⟨by decide, by decide,
   (keyerror_dialog_policy ["alpha", "beta"] ["alpha", "gamma"]).2.1 "gamma"
     (by decide) (by decide)⟩

/-- Claim C6: when parsing the incoming data fails, the load dialog
catches the failure, reports it non-fatally, and the whole prior
application state, the live record included, is returned unchanged:
load_file performs no mutation before the parse has succeeded. -/
theorem load_failure_preserves_record (st : AppState) (path e : String) :
    load_dialog st path (Except.error e) = (st, some (cannot_open_msg ++ path)) := by
  rfl

/-- Claim C7: during restore_forms both guard flags are cleared, so
none of the change notifications fired by the programmatic widget
updates writes into the data record or triggers a temp-file save, for
any sequence of fired notifications. -/
theorem restore_forms_suppresses (st : AppState) (fired : List (String × Value)) :
    (restore_forms st fired).data = st.data ∧
    (restore_forms st fired).tmp_saves = st.tmp_saves := by
  have key : ∀ (l : List (String × Value)) (s : AppState),
      s.update_dict = false → s.save_to_tmp = false →
      (l.foldl (fun a kv => values_changed a kv.1 kv.2) s).data = s.data ∧
      (l.foldl (fun a kv => values_changed a kv.1 kv.2) s).tmp_saves = s.tmp_saves := by
    intro l
    induction l with
    | nil => intro s hu ht; exact ⟨rfl, rfl⟩
    | cons kv t ih =>
        intro s hu ht
        have hstep : values_changed s kv.1 kv.2 = { s with saved_to_file := false } := by
          simp [values_changed, hu, ht]
        rw [List.foldl_cons, hstep]
        exact ih { s with saved_to_file := false } hu ht
  have h := key fired { st with save_to_tmp := false, update_dict := false } rfl rfl
  simp [restore_forms, h.1, h.2]

/-- First matching option found by find_text is the value itself. -/
theorem find_text_mem {items : List String} {val : String} (h : val ∈ items) :
    ∃ idx, find_text items val = some idx ∧ items[idx]? = some val := by
  induction items with
  | nil => simp at h
  | cons a t ih =>
      by_cases ha : a = val
      · exact ⟨0, by simp [find_text, ha], by simp [ha]⟩
      · have hmem : val ∈ t := by
          rcases List.mem_cons.mp h with h1 | h1
          · exact absurd h1.symm ha
          · exact h1
        rcases ih hmem with ⟨i, hf, hg⟩
        exact ⟨i + 1, by simp [find_text, ha, hf], by simpa using hg⟩

/-- A value appearing in no option is not found by find_text. -/
theorem find_text_not_mem {items : List String} {val : String} (h : val ∉ items) :
    find_text items val = none := by
  induction items with
  | nil => rfl
  | cons a t ih =>
      simp at h
      simp [find_text, ih h.2]
      intro ha
      exact absurd ha.symm h.1

/-- Claim C8: encoding a value that matches one of the combobox options
selects that option (the widget afterwards decodes to exactly that
value and no error is raised), and encoding a value with no matching
option raises the invalid-value error while leaving the widget state
unchanged. -/
theorem combobox_setval_correct (w : ComboBox) (val : String) :
    (val ∈ w.items → ∃ idx, combobox_setval w val = ({ w with currentIndex := idx }, none) ∧
      combobox_getval { w with currentIndex := idx } = val) ∧
    (val ∉ w.items → combobox_setval w val = (w, some invalid_choice_msg)) := by
  constructor
  · intro h
    rcases find_text_mem h with ⟨idx, hf, hg⟩
    exact ⟨idx, by simp [combobox_setval, hf], by simp [combobox_getval, hg]⟩
  · intro h
    simp [combobox_setval, find_text_not_mem h]

/-- Witness for combobox_setval_correct on a two-option combobox,
encoding the second option. -/
theorem combobox_setval_correct_witness :
    ("valinta2" ∈ (ComboBox.mk ["valinta1", "valinta2"] 0).items) ∧
    (∃ idx, combobox_setval (ComboBox.mk ["valinta1", "valinta2"] 0) "valinta2" =
        ({ ComboBox.mk ["valinta1", "valinta2"] 0 with currentIndex := idx }, none) ∧
      combobox_getval { ComboBox.mk ["valinta1", "valinta2"] 0 with currentIndex := idx } =
        "valinta2") :=
  ⟨by decide,
   (combobox_setval_correct (ComboBox.mk ["valinta1", "valinta2"] 0) "valinta2").1
     (by decide)⟩

/-- Claim C9: the variable name of every bound control follows the
fixed longest-prefix rule of init_widgets and widget_to_var: names
starting csb drop three characters, names starting cmt are kept whole,
names starting sp, ln, cb or xb drop two characters, and a name with
none of these starts is not collected into the registry at all. -/
theorem naming_rule_correct (wname : List Char) :
    (wname.take 3 = ['c', 's', 'b'] →
      classify wname = some WidgetType.checkdeg ∧ widget_to_var wname = wname.drop 3) ∧
    (wname.take 3 = ['c', 'm', 't'] →
      classify wname = some WidgetType.comment ∧ widget_to_var wname = wname) ∧
    (wname.take 2 = ['s', 'p'] →
      classify wname = some WidgetType.spinbox ∧ widget_to_var wname = wname.drop 2) ∧
    (wname.take 2 = ['l', 'n'] →
      classify wname = some WidgetType.lineedit ∧ widget_to_var wname = wname.drop 2) ∧
    (wname.take 2 = ['c', 'b'] →
      classify wname = some WidgetType.combobox ∧ widget_to_var wname = wname.drop 2) ∧
    (wname.take 2 = ['x', 'b'] →
      classify wname = some WidgetType.checkbox ∧ widget_to_var wname = wname.drop 2) ∧
    (wname.take 2 ≠ ['s', 'p'] → wname.take 2 ≠ ['l', 'n'] → wname.take 2 ≠ ['c', 'b'] →
      wname.take 2 ≠ ['x', 'b'] → wname.take 3 ≠ ['c', 'm', 't'] →
      wname.take 3 ≠ ['c', 's', 'b'] → classify wname = none) := by
  refine ⟨?_, ?_, ?_, ?_, ?_, ?_, ?_⟩
  · intro h
    obtain ⟨t, rfl⟩ := take_three_eq h
    exact ⟨rfl, rfl⟩
  · intro h
    obtain ⟨t, rfl⟩ := take_three_eq h
    exact ⟨rfl, rfl⟩
  · intro h
    obtain ⟨t, rfl⟩ := take_two_eq h
    exact ⟨rfl, rfl⟩
  · intro h
    obtain ⟨t, rfl⟩ := take_two_eq h
    exact ⟨rfl, rfl⟩
  · intro h
    obtain ⟨t, rfl⟩ := take_two_eq h
    exact ⟨rfl, rfl⟩
  · intro h
    obtain ⟨t, rfl⟩ := take_two_eq h
    exact ⟨rfl, rfl⟩
  · intro h1 h2 h3 h4 h5 h6
    unfold classify
    rw [if_neg h1, if_neg h2, if_neg h3, if_neg h5, if_neg h4, if_neg h6]

/-- Witness for naming_rule_correct at a concrete checkdegspinbox name. -/
theorem naming_rule_correct_witness :
    ((['c', 's', 'b', 'L', 'o', 'n', 'k', 'k', 'a'] : List Char).take 3 = ['c', 's', 'b']) ∧
    (classify ['c', 's', 'b', 'L', 'o', 'n', 'k', 'k', 'a'] = some WidgetType.checkdeg ∧
      widget_to_var ['c', 's', 'b', 'L', 'o', 'n', 'k', 'k', 'a'] =
        (['c', 's', 'b', 'L', 'o', 'n', 'k', 'k', 'a'] : List Char).drop 3) :=
  ⟨by decide,
   (naming_rule_correct ['c', 's', 'b', 'L', 'o', 'n', 'k', 'k', 'a']).1 (by decide)⟩

/-- Counterexample for claim C10: a numeric control holding the
fractional value 5 / 2 (denominator 2, so not an integer) still reports
its configured suffix as the unit, because Python int() truncates a
float instead of raising ValueError, so isint accepts every number. -/
theorem fractional_unit_cex :
    (((5 : ℚ) / 2).den = 2) ∧
    (spinbox_getval (SpinBox.mk 0 10 (5 / 2) "kg") = Value.num (5 / 2)) ∧
    (spinbox_unit (SpinBox.mk 0 10 (5 / 2) "kg") = "kg") ∧
    ("kg" : String) ≠ "" := by
  have hne : ((5 : ℚ) / 2) ≠ 0 := by norm_num
  refine ⟨?_, ?_, ?_, by decide⟩
  · norm_num [Rat.den]
  · simp [spinbox_getval, hne]
  · simp [spinbox_unit, spinbox_getval, hne, isint]

/-- Amended claim C10: for a numeric (sp) control the unit is the empty
string exactly when the current value decodes to the NoValue sentinel;
every numeric current value, fractional reals included, passes the
isint test (Python int() truncates rather than raising), so the
configured suffix is reported whenever the value is not the sentinel. -/
theorem spinbox_unit_policy (w : SpinBox) :
    (spinbox_getval w ≠ Value.noValue → spinbox_unit w = w.sfx) ∧
    (spinbox_getval w = Value.noValue → spinbox_unit w = "") := by
  constructor
  · intro h
    by_cases hv : w.value = w.minimum
    · exact absurd (by simp [spinbox_getval, hv]) h
    · simp [spinbox_unit, spinbox_getval, hv, isint]
  · intro h
    simp [spinbox_unit, h, isint]

/-- Witness for spinbox_unit_policy at a concrete fractional-valued
spinbox and at a concrete sentinel-valued spinbox. -/
theorem spinbox_unit_policy_witness :
    (spinbox_getval (SpinBox.mk 0 10 (5 / 2) "kg") ≠ Value.noValue) ∧
    (spinbox_unit (SpinBox.mk 0 10 (5 / 2) "kg") = "kg") ∧
    (spinbox_getval (SpinBox.mk 0 10 0 "kg") = Value.noValue) ∧
    (spinbox_unit (SpinBox.mk 0 10 0 "kg") = "") :=
  ⟨by simp [spinbox_getval],
   (spinbox_unit_policy (SpinBox.mk 0 10 (5 / 2) "kg")).1
     (by simp [spinbox_getval]),
   by decide,
   (spinbox_unit_policy (SpinBox.mk 0 10 0 "kg")).2 (by decide)⟩
